import Mathlib

/-
Verification of the GitHub PR readiness classification engine.

The embedding follows the two source variants of the `fetch-github-pr` tool
and the widget action builder `getNextActions`:
  - `classify` embeds the richer variant (normalized check states, line-by-line
    mirror of the sequential status mutation: conflicts, approvals, checks, draft);
  - `classifyV1` embeds the first variant (completed/passing check counting);
  - `getNextActions` embeds the widget's priority-ordered action list.
-/

namespace PRReadiness

inductive CheckState where
| success
| failure
| pending
| error
deriving DecidableEq, Repr

inductive Status where
| ready
| pending
| notReady
deriving DecidableEq, Repr

structure CheckRun where
  status : String
  conclusion : Option String
deriving DecidableEq, Repr

structure Snapshot where
  mergeable : Option Bool
  draft : Bool
  approvals : Nat
  requestedReviewers : Nat
  checks : List CheckState
deriving DecidableEq, Repr

structure RawSnapshot where
  mergeable : Option Bool
  draft : Bool
  approvals : Nat
  requestedReviewers : Nat
  checkRuns : List CheckRun
deriving DecidableEq, Repr

structure Verdict where
  status : Status
  issues : List String
deriving DecidableEq, Repr

def conflictIssue : String := "Resolve the existing merge conflicts before merging"

def approvalsIssue (n : Nat) : String := "Needs " ++ toString n ++ " more approval(s)"

def checksIssue (n : Nat) : String := toString n ++ " check(s) failing"

def draftIssue : String := "PR is still in draft"

/-- Normalization of a raw conclusion value, mirroring the nested conditional
expression in the richer tool variant. -/
def normalizeConclusion (c : Option String) : CheckState :=
  if c = some "success" then CheckState.success
  else if c = some "failure" then CheckState.failure
  else if c = some "cancelled" then CheckState.error
  else CheckState.pending

def isFailing (c : CheckState) : Bool :=
  c == CheckState.failure || c == CheckState.error

def failingCount (checks : List CheckState) : Nat :=
  (checks.filter isFailing).length

def pendingCount (checks : List CheckState) : Nat :=
  (checks.filter (fun c => c == CheckState.pending)).length

/-- Mirrors Math.max(1, prData.requested_reviewers?.length || 1): a zero
reviewer count is falsy in the source and replaced by 1 before the max. -/
def requiredApprovals (requestedReviewers : Nat) : Nat :=
  max 1 (if requestedReviewers = 0 then 1 else requestedReviewers)

/-- The conditional status update shared by the approvals and checks rules. -/
def downgrade (s : Status) : Status :=
  if s = Status.ready then Status.pending else Status.notReady

def conflictsRule (hasConflicts : Bool) (v : Verdict) : Verdict :=
  if hasConflicts then ⟨Status.notReady, v.issues ++ [conflictIssue]⟩ else v

def approvalsRule (approvals required : Nat) (v : Verdict) : Verdict :=
  if approvals < required then
    ⟨downgrade v.status, v.issues ++ [approvalsIssue (required - approvals)]⟩
  else v

def checksRule (failing : Nat) (v : Verdict) : Verdict :=
  if 0 < failing then
    ⟨downgrade v.status, v.issues ++ [checksIssue failing]⟩
  else v

def draftRule (draft : Bool) (v : Verdict) : Verdict :=
  if draft then ⟨Status.notReady, v.issues ++ [draftIssue]⟩ else v

/-- The readiness classifier of the richer tool variant: the mutable status
and issues list are threaded through the four conditionals in source order
(conflicts, approvals, checks, draft). -/
def classify (snap : Snapshot) : Verdict :=
  draftRule snap.draft
    (checksRule (failingCount snap.checks)
      (approvalsRule snap.approvals (requiredApprovals snap.requestedReviewers)
        (conflictsRule (snap.mergeable == some false) ⟨Status.ready, []⟩)))

def fixChecksAction (n : Nat) : String :=
  "Fix " ++ toString n ++ " failing check" ++ (if 1 < n then "s" else "")

def requestApprovalsAction (n : Nat) : String :=
  "Request " ++ toString n ++ " more approval" ++ (if 1 < n then "s" else "")

def waitChecksAction (n : Nat) : String :=
  "Wait for " ++ toString n ++ " pending check" ++ (if 1 < n then "s" else "")

def markReadyAction : String := "Mark the PR as ready for review"

/-- The widget action builder: pushes applicable actions in priority order
(conflicts, draft, failing checks, missing approvals, pending checks) and
slices to the first 3. -/
def getNextActions (snap : Snapshot) : List String :=
  let failing := failingCount snap.checks
  let pending := pendingCount snap.checks
  let required := requiredApprovals snap.requestedReviewers
  let a1 := if snap.mergeable == some false then [conflictIssue] else []
  let a2 := a1 ++ (if snap.draft then [markReadyAction] else [])
  let a3 := a2 ++ (if 0 < failing then [fixChecksAction failing] else [])
  let a4 := a3 ++ (if snap.approvals < required then
    [requestApprovalsAction (required - snap.approvals)] else [])
  let a5 := a4 ++ (if 0 < pending then [waitChecksAction pending] else [])
  a5.take 3

def completedCount (runs : List CheckRun) : Nat :=
  (runs.filter (fun c => c.status == "completed")).length

def passingCompletedCount (runs : List CheckRun) : Nat :=
  (runs.filter (fun c => c.status == "completed" && c.conclusion == some "success")).length

/-- The classifier of the first tool variant: same rule sequence, but the
checks rule counts completed non-passing runs against the completed total,
and required approvals is Math.max(1, requestedReviewers) with a 0 default. -/
def classifyV1 (raw : RawSnapshot) : Verdict :=
  let passingChecks := passingCompletedCount raw.checkRuns
  let totalChecks := completedCount raw.checkRuns
  let v1 := conflictsRule (raw.mergeable == some false) ⟨Status.ready, []⟩
  let v2 := approvalsRule raw.approvals (max 1 raw.requestedReviewers) v1
  let v3 := if 0 < totalChecks ∧ passingChecks < totalChecks then
      ⟨downgrade v2.status, v2.issues ++ [checksIssue (totalChecks - passingChecks)]⟩
    else v2
  draftRule raw.draft v3

def extractChecks (runs : List CheckRun) : List CheckState :=
  runs.map (fun c => normalizeConclusion c.conclusion)

/-- The richer variant run on the same raw snapshot: normalize the check runs
and classify. -/
def classifyV2 (raw : RawSnapshot) : Verdict :=
  classify ⟨raw.mergeable, raw.draft, raw.approvals, raw.requestedReviewers,
    extractChecks raw.checkRuns⟩

lemma requiredApprovals_eq_max (n : Nat) : requiredApprovals n = max 1 n := by
  unfold requiredApprovals
  rcases n with _ | m
  · simp
  · simp

lemma downgrade_ne_ready (s : Status) : downgrade s ≠ Status.ready := by
  unfold downgrade
  split <;> decide

/-- Claim C1: whenever mergeable is false, the classifier outputs status
not-ready regardless of all other signals, and the merge-conflict issue is in
the issues list. -/
theorem conflicts_force_notReady (snap : Snapshot) (h : snap.mergeable = some false) :
    (classify snap).status = Status.notReady ∧ conflictIssue ∈ (classify snap).issues := by
  rcases snap with ⟨m, d, a, r, ch⟩
  simp only at h
  by_cases h2 : a < requiredApprovals r <;>
  by_cases h3 : 0 < failingCount ch <;>
  by_cases h4 : d = true <;>
  simp [classify, conflictsRule, approvalsRule, checksRule, draftRule, downgrade,
    h, h2, h3, h4]

theorem conflicts_force_notReady_witness :
    (some false = some (false : Bool)) ∧
    ((classify ⟨some false, false, 5, 1, [CheckState.success]⟩).status = Status.notReady ∧
      conflictIssue ∈ (classify ⟨some false, false, 5, 1, [CheckState.success]⟩).issues) :=
  ⟨rfl, conflicts_force_notReady ⟨some false, false, 5, 1, [CheckState.success]⟩ rfl⟩

/-- A snapshot whose status is pending after the approvals rule (no conflicts,
not draft, approvals below required) with one failing check. -/
def snapPendingFailing : Snapshot := ⟨some true, false, 0, 1, [CheckState.failure]⟩

/-- Claim C2 counterexample: on a snapshot that is pending after the approvals
rule and has a failing check, the classifier outputs not-ready, not pending:
the checks rule moves pending to not-ready. -/
theorem checks_rule_pending_counterexample :
    (classify snapPendingFailing).status = Status.notReady ∧
      Status.notReady ≠ Status.pending := by
  exact ⟨rfl, by decide⟩

/-- Claim C2 (amended): when the failing-check count is positive, the checks
rule downgrades — not-ready stays not-ready, ready becomes pending, but a
pending status becomes not-ready — and appends the failing-checks issue. -/
theorem checks_rule_downgrades (v : Verdict) (failing : Nat) (h : 0 < failing) :
    (checksRule failing v).status = downgrade v.status ∧
    (v.status = Status.notReady → (checksRule failing v).status = Status.notReady) ∧
    (v.status = Status.ready → (checksRule failing v).status = Status.pending) ∧
    (v.status = Status.pending → (checksRule failing v).status = Status.notReady) ∧
    (checksRule failing v).issues = v.issues ++ [checksIssue failing] := by
  refine ⟨?_, ?_, ?_, ?_, ?_⟩
  · simp [checksRule, h]
  · intro hs
    simp [checksRule, downgrade, h, hs]
  · intro hs
    simp [checksRule, downgrade, h, hs]
  · intro hs
    simp [checksRule, downgrade, h, hs]
  · simp [checksRule, h]

theorem checks_rule_downgrades_witness :
    0 < 1 ∧
    ((checksRule 1 ⟨Status.pending, []⟩).status = downgrade Status.pending ∧
    ((Verdict.mk Status.pending []).status = Status.notReady →
      (checksRule 1 ⟨Status.pending, []⟩).status = Status.notReady) ∧
    ((Verdict.mk Status.pending []).status = Status.ready →
      (checksRule 1 ⟨Status.pending, []⟩).status = Status.pending) ∧
    ((Verdict.mk Status.pending []).status = Status.pending →
      (checksRule 1 ⟨Status.pending, []⟩).status = Status.notReady) ∧
    (checksRule 1 ⟨Status.pending, []⟩).issues = [] ++ [checksIssue 1]) :=
  ⟨by decide, checks_rule_downgrades ⟨Status.pending, []⟩ 1 (by decide)⟩

/-- The Scenario C snapshot: mergeable true, not draft, 0 of 1 required
approvals, one failing and one pending check. -/
def snapScenarioC : Snapshot :=
  ⟨some true, false, 0, 1, [CheckState.failure, CheckState.pending]⟩

/-- Claim C3 counterexample: on Scenario C the action builder produces three
next actions (the pending check contributes a wait action), not two. -/
theorem scenarioC_counterexample :
    (getNextActions snapScenarioC).length = 3 ∧ (3 : Nat) ≠ 2 := by
  exact ⟨rfl, by decide⟩

/-- Claim C3 (amended): Scenario C yields status not-ready, issues exactly
the approvals issue then the failing-checks issue, and next actions of length
exactly 3, ordered failing-checks action, approvals action, pending-checks
action. -/
theorem scenarioC_amended :
    (classify snapScenarioC).status = Status.notReady ∧
    (classify snapScenarioC).issues = [approvalsIssue 1, checksIssue 1] ∧
    getNextActions snapScenarioC =
      [fixChecksAction 1, requestApprovalsAction 1, waitChecksAction 1] :=
  ⟨rfl, rfl, rfl⟩

/-- A draft snapshot that also lacks approvals: draft true, zero requested
reviewers, zero approvals, no conflicts, no checks. -/
def snapDraftNoApprovals : Snapshot := ⟨some true, true, 0, 0, []⟩

/-- Claim C4 counterexample: for a draft PR that also lacks approvals, the
issues list is the approvals issue followed by the draft issue — the draft
issue does not appear before the approvals issue. -/
theorem issues_order_counterexample :
    (classify snapDraftNoApprovals).issues = [approvalsIssue 1, draftIssue] ∧
    ([approvalsIssue 1, draftIssue] : List String) ≠ [draftIssue, approvalsIssue 1] := by
  exact ⟨rfl, by decide⟩

/-- Claim C4 (amended): the issues list is produced in the discovery order of
the rule sequence the source actually runs — conflicts, then missing
approvals, then failing checks, then draft — so a draft issue appears after
an approvals issue, not before. -/
theorem issues_discovery_order (snap : Snapshot) :
    (classify snap).issues =
      (if snap.mergeable = some false then [conflictIssue] else []) ++
      (if snap.approvals < requiredApprovals snap.requestedReviewers then
        [approvalsIssue (requiredApprovals snap.requestedReviewers - snap.approvals)]
      else []) ++
      (if 0 < failingCount snap.checks then [checksIssue (failingCount snap.checks)]
      else []) ++
      (if snap.draft then [draftIssue] else []) := by
  rcases snap with ⟨m, d, a, r, ch⟩
  by_cases h1 : m = some false <;>
  by_cases h2 : a < requiredApprovals r <;>
  by_cases h3 : 0 < failingCount ch <;>
  by_cases h4 : d = true <;>
  simp [classify, conflictsRule, approvalsRule, checksRule, draftRule, downgrade,
    h1, h2, h3, h4]

/-- Claim C5: whenever the draft flag is set, the classifier outputs status
not-ready regardless of all other signals, and the draft issue is in the
issues list. -/
theorem draft_forces_notReady (snap : Snapshot) (h : snap.draft = true) :
    (classify snap).status = Status.notReady ∧ draftIssue ∈ (classify snap).issues := by
  rcases snap with ⟨m, d, a, r, ch⟩
  simp only at h
  simp [classify, draftRule, h]

theorem draft_forces_notReady_witness :
    (true = true) ∧
    ((classify ⟨some true, true, 5, 1, [CheckState.success]⟩).status = Status.notReady ∧
      draftIssue ∈ (classify ⟨some true, true, 5, 1, [CheckState.success]⟩).issues) :=
  ⟨rfl, draft_forces_notReady ⟨some true, true, 5, 1, [CheckState.success]⟩ rfl⟩

/-- Claim C6: the next-actions list is the priority-ordered list of applicable
actions (conflicts, draft action, failing checks, missing approvals, pending
checks) truncated to its first 3 entries, so its length is at most 3. -/
theorem nextActions_priority_capped (snap : Snapshot) :
    getNextActions snap =
      ((if snap.mergeable = some false then [conflictIssue] else []) ++
       (if snap.draft then [markReadyAction] else []) ++
       (if 0 < failingCount snap.checks then
         [fixChecksAction (failingCount snap.checks)] else []) ++
       (if snap.approvals < requiredApprovals snap.requestedReviewers then
         [requestApprovalsAction (requiredApprovals snap.requestedReviewers - snap.approvals)]
       else []) ++
       (if 0 < pendingCount snap.checks then
         [waitChecksAction (pendingCount snap.checks)] else [])).take 3 ∧
    (getNextActions snap).length ≤ 3 := by
  constructor
  · rcases snap with ⟨m, d, a, r, ch⟩
    by_cases h1 : m = some false <;>
    by_cases h2 : d = true <;>
    by_cases h3 : 0 < failingCount ch <;>
    by_cases h4 : a < requiredApprovals r <;>
    by_cases h5 : 0 < pendingCount ch <;>
    simp [getNextActions, h1, h2, h3, h4, h5]
  · simp only [getNextActions, List.length_take]
    exact Nat.min_le_left _ _

/-- Claim C7: with mergeable not confirmed-false, draft off, approvals at or
above required, and no check normalized to failure or error, the classifier
outputs ready; pending checks alone never downgrade and unknown mergeability
is not a conflict. -/
theorem clean_snapshot_ready (snap : Snapshot)
    (hm : snap.mergeable ≠ some false) (hd : snap.draft = false)
    (ha : requiredApprovals snap.requestedReviewers ≤ snap.approvals)
    (hc : ∀ c ∈ snap.checks, ¬(c = CheckState.failure ∨ c = CheckState.error)) :
    (classify snap).status = Status.ready := by
  have hfilter : snap.checks.filter isFailing = [] := by
    rw [List.filter_eq_nil_iff]
    intro c hcc
    have h2 := hc c hcc
    rcases c <;> simp_all [isFailing]
  have hfc : failingCount snap.checks = 0 := by
    simp [failingCount, hfilter]
  simp [classify, conflictsRule, approvalsRule, checksRule, draftRule, hd, hfc,
    Nat.not_lt.mpr ha, hm]

theorem clean_snapshot_ready_witness :
    ((none : Option Bool) ≠ some false) ∧
    requiredApprovals 0 ≤ 1 ∧
    (∀ c ∈ [CheckState.pending], ¬(c = CheckState.failure ∨ c = CheckState.error)) ∧
    (classify ⟨none, false, 1, 0, [CheckState.pending]⟩).status = Status.ready :=
  ⟨by decide, by decide, by decide,
    clean_snapshot_ready ⟨none, false, 1, 0, [CheckState.pending]⟩
      (by decide) rfl (by decide) (by decide)⟩

/-- Claim C8: the required-approvals count is max(1, requested reviewers), and
a snapshot with zero requested reviewers and zero approvals has required
approvals 1, is not classified ready, and carries the needs-1-approval issue. -/
theorem requiredApprovals_floor (snap : Snapshot) :
    requiredApprovals snap.requestedReviewers = max 1 snap.requestedReviewers ∧
    (snap.requestedReviewers = 0 → snap.approvals = 0 →
      requiredApprovals snap.requestedReviewers = 1 ∧
      (classify snap).status ≠ Status.ready ∧
      approvalsIssue 1 ∈ (classify snap).issues) := by
  refine ⟨requiredApprovals_eq_max _, fun h0 ha => ?_⟩
  rcases snap with ⟨m, d, a, r, ch⟩
  simp only at h0 ha
  subst h0
  subst ha
  refine ⟨rfl, ?_⟩
  by_cases h1 : m = some false <;>
  by_cases h3 : 0 < failingCount ch <;>
  by_cases h4 : d = true <;>
  simp [classify, conflictsRule, approvalsRule, checksRule, draftRule, downgrade,
    requiredApprovals, h1, h3, h4]

theorem requiredApprovals_floor_witness :
    ((0 : Nat) = 0) ∧
    (requiredApprovals 0 = 1 ∧
      (classify ⟨some true, false, 0, 0, []⟩).status ≠ Status.ready ∧
      approvalsIssue 1 ∈ (classify ⟨some true, false, 0, 0, []⟩).issues) :=
  ⟨rfl, (requiredApprovals_floor ⟨some true, false, 0, 0, []⟩).2 rfl rfl⟩

/-- Claim C9: the issues list is empty exactly when the status is ready:
every downgrade appends an issue and every issue comes with a downgrade. -/
theorem issues_empty_iff_ready (snap : Snapshot) :
    (classify snap).issues = [] ↔ (classify snap).status = Status.ready := by
  rcases snap with ⟨m, d, a, r, ch⟩
  by_cases h1 : m = some false <;>
  by_cases h2 : a < requiredApprovals r <;>
  by_cases h3 : 0 < failingCount ch <;>
  by_cases h4 : d = true <;>
  simp [classify, conflictsRule, approvalsRule, checksRule, draftRule, downgrade,
    h1, h2, h3, h4]

lemma completed_split (runs : List CheckRun)
    (h : ∀ c ∈ runs, c.status = "completed" ∧
      (c.conclusion = some "success" ∨ c.conclusion = some "failure")) :
    completedCount runs = passingCompletedCount runs + failingCount (extractChecks runs) := by
  induction runs with
  | nil => rfl
  | cons c cs ih =>
    obtain ⟨hst, hcl⟩ := h c (List.mem_cons_self c cs)
    have ih2 := ih (fun x hx => h x (List.mem_cons_of_mem c hx))
    rcases hcl with hs | hf
    · simp [completedCount, passingCompletedCount, failingCount, extractChecks,
        normalizeConclusion, isFailing, hst, hs] at ih2 ⊢
      omega
    · simp [completedCount, passingCompletedCount, failingCount, extractChecks,
        normalizeConclusion, isFailing, hst, hf] at ih2 ⊢
      omega

/-- Claim C10: when every check run is completed with conclusion success or
failure, the two classifier variants agree on the whole verdict (status and
issues alike). -/
theorem variants_agree (raw : RawSnapshot)
    (h : ∀ c ∈ raw.checkRuns, c.status = "completed" ∧
      (c.conclusion = some "success" ∨ c.conclusion = some "failure")) :
    classifyV1 raw = classifyV2 raw := by
  have hsplit := completed_split raw.checkRuns h
  have hcount : completedCount raw.checkRuns - passingCompletedCount raw.checkRuns
      = failingCount (extractChecks raw.checkRuns) := by omega
  have hcond : (0 < completedCount raw.checkRuns ∧
      passingCompletedCount raw.checkRuns < completedCount raw.checkRuns)
      ↔ 0 < failingCount (extractChecks raw.checkRuns) := by
    constructor
    · intro hx
      omega
    · intro hx
      omega
  unfold classifyV1 classifyV2 classify checksRule
  simp only [requiredApprovals_eq_max, hcount, hcond]

theorem variants_agree_witness :
    (∀ c ∈ [CheckRun.mk "completed" (some "success"), CheckRun.mk "completed" (some "failure")],
      c.status = "completed" ∧
      (c.conclusion = some "success" ∨ c.conclusion = some "failure")) ∧
    classifyV1 ⟨some true, false, 1, 2,
        [CheckRun.mk "completed" (some "success"), CheckRun.mk "completed" (some "failure")]⟩ =
      classifyV2 ⟨some true, false, 1, 2,
        [CheckRun.mk "completed" (some "success"), CheckRun.mk "completed" (some "failure")]⟩ :=
  ⟨by decide,
    variants_agree ⟨some true, false, 1, 2,
      [CheckRun.mk "completed" (some "success"), CheckRun.mk "completed" (some "failure")]⟩
      (by decide)⟩

end PRReadiness
